import Mathlib

/-!
Shallow embedding of the `rust-coreaudio-draft` repository:

* `src/utils/audio_objects/mod.rs` — the `AudioObject` / `AudioSystemObject`
  device-query layer (scope tests, labels, device enumeration, default-device
  get/set), built over the generic property-query protocol.
* `src/stream/mod.rs` — the `Stream` engine: `Format`, `Parameters`,
  construction, `init`, render-callback bridging and teardown.

The property-query protocol (`audio_object_utils`, declared but absent from
the sources) and the hardware-unit handle (`audio_unit`, an external
collaborator) are modelled as environments: records of oracle functions whose
results the embedded code inspects, so that everything the repository code
does with those results is translated faithfully.
-/

/-! ## Platform constants and the property-address table -/

/-- Rust `kAudioObjectUnknown`: reserved sentinel `AudioObjectID` denoting
"unknown/invalid device". -/
def kAudioObjectUnknown : Nat := 0

/-- Rust `kAudioObjectSystemObject`: reserved `AudioObjectID` of the system root. -/
def kAudioObjectSystemObject : Nat := 1

/-- Property selectors used by the fixed address table in
`src/utils/audio_objects/mod.rs` (the numeric FourCC values are irrelevant to
the logic, so selectors are an enumeration). -/
inductive Selector where
  | name
  | devices
  | defaultInputDevice
  | defaultOutputDevice
  | streams
  | dataSource
  | dataSourceNameForID
deriving DecidableEq, Repr

/-- Property scopes `kAudioObjectPropertyScope{Input,Output,Global}`. -/
inductive PropScope where
  | input
  | output
  | global
deriving DecidableEq, Repr

/-- Property elements; the table only uses `kAudioObjectPropertyElementMaster`. -/
inductive PropElement where
  | master
deriving DecidableEq, Repr

/-- Rust `AudioObjectPropertyAddress`: immutable (selector, scope, element) triple. -/
structure AudioObjectPropertyAddress where
  mSelector : Selector
  mScope : PropScope
  mElement : PropElement
deriving DecidableEq, Repr

def DEVICE_NAME_PROPERTY_ADDRESS : AudioObjectPropertyAddress :=
  ⟨Selector.name, PropScope.global, PropElement.master⟩

def DEVICE_PROPERTY_ADDRESS : AudioObjectPropertyAddress :=
  ⟨Selector.devices, PropScope.global, PropElement.master⟩

def DEFAULT_INPUT_DEVICE_PROPERTY_ADDRESS : AudioObjectPropertyAddress :=
  ⟨Selector.defaultInputDevice, PropScope.global, PropElement.master⟩

def DEFAULT_OUTPUT_DEVICE_PROPERTY_ADDRESS : AudioObjectPropertyAddress :=
  ⟨Selector.defaultOutputDevice, PropScope.global, PropElement.master⟩

def INPUT_DEVICE_STREAMS_PROPERTY_ADDRESS : AudioObjectPropertyAddress :=
  ⟨Selector.streams, PropScope.input, PropElement.master⟩

def OUTPUT_DEVICE_STREAMS_PROPERTY_ADDRESS : AudioObjectPropertyAddress :=
  ⟨Selector.streams, PropScope.output, PropElement.master⟩

def INPUT_DEVICE_SOURCE_PROPERTY_ADDRESS : AudioObjectPropertyAddress :=
  ⟨Selector.dataSource, PropScope.input, PropElement.master⟩

def OUTPUT_DEVICE_SOURCE_PROPERTY_ADDRESS : AudioObjectPropertyAddress :=
  ⟨Selector.dataSource, PropScope.output, PropElement.master⟩

def INPUT_DEVICE_SOURCE_NAME_PROPERTY_ADDRESS : AudioObjectPropertyAddress :=
  ⟨Selector.dataSourceNameForID, PropScope.input, PropElement.master⟩

def OUTPUT_DEVICE_SOURCE_NAME_PROPERTY_ADDRESS : AudioObjectPropertyAddress :=
  ⟨Selector.dataSourceNameForID, PropScope.output, PropElement.master⟩

/-! ## Error taxonomy of the device-query path -/

/-- Modelled from the spec: the error type of the absent `audio_object_utils`
module ("`InvalidParameters` (underlying query rejected handle/address/size)");
carried as an opaque platform status code. -/
structure UtilsError where
  status : Int
deriving DecidableEq, Repr

/-- Rust `string_wrapper::Error` from
`src/utils/audio_objects/string_wrapper/mod.rs`; the `Utf8Error` payload is
abstracted to its byte position. -/
inductive StringWrapperError where
  | FailToGetBytes
  | LengthIsZero
  | NullString
  | Utf8 (valid_up_to : Nat)
deriving DecidableEq, Repr

/-- Rust `Error` enumeration of `src/utils/audio_objects/mod.rs`. -/
inductive AOError where
  | ConversionFailed (e : StringWrapperError)
  | InvalidParameters (e : UtilsError)
  | NoDeviceFound
  | SetSameDevice
  | WrongScope
deriving DecidableEq, Repr

/-- Rust `Scope` enumeration of `src/utils/audio_objects/mod.rs`. -/
inductive Scope where
  | input
  | output
deriving DecidableEq, Repr

/-- Rust `AudioObject`: wraps one `AudioObjectID`; equality is by-value on the
handle (`#[derive(PartialEq)]`). -/
structure AudioObject where
  id : Nat
deriving DecidableEq, Repr

/-- Rust `AudioObject::new`. -/
def AudioObject.new (id : Nat) : AudioObject := ⟨id⟩

/-- Rust `AudioObject::is_valid`: true iff the handle is not `kAudioObjectUnknown`. -/
def AudioObject.is_valid (d : AudioObject) : Bool :=
  d.id ≠ kAudioObjectUnknown

/-- Rust `impl Default for AudioObject`: the invalid sentinel. -/
def AudioObject.defaultValue : AudioObject := AudioObject.new kAudioObjectUnknown

/-- Rust `StringRef::into_string` depends on CoreFoundation calls outside the
repository, so the marshaling outcome of a queried string handle is carried
abstractly: a `StringRef` behaves as the `Result<String, Error>` its
`into_string` would produce. -/
def StringRefResult : Type := Except StringWrapperError String

/-- Modelled from the spec: the absent `audio_object_utils` property-query
protocol ("typed get/get-array/set/get-with-size operations over an
address-keyed property space"), as an oracle keyed by handle and address.
Each field is one generic operation at the payload type the repository
instantiates it with:
* `dataU32` — `get_property_data::<T>` for 32-bit payloads (`AudioObjectID`,
  the data-source `u32`);
* `dataStr` — `get_property_data::<StringRef>` (device name);
* `dataSize` — `get_property_data_size`;
* `arrayU32` — `get_property_array::<AudioObject>`;
* `setU32` — `set_property_data` with a device handle;
* `withPtrTranslation` — `get_property_data_with_ptr` on an
  `AudioValueTranslation` carrying a source id in and a string handle out. -/
structure PropertyEnv where
  dataU32 : Nat → AudioObjectPropertyAddress → Except UtilsError Nat
  dataStr : Nat → AudioObjectPropertyAddress → Except UtilsError StringRefResult
  dataSize : Nat → AudioObjectPropertyAddress → Except UtilsError Nat
  arrayU32 : Nat → AudioObjectPropertyAddress → Except UtilsError (List Nat)
  setU32 : Nat → AudioObjectPropertyAddress → Nat → Except UtilsError Unit
  withPtrTranslation :
    Nat → AudioObjectPropertyAddress → Nat → Except UtilsError StringRefResult

/-- Rust `size_of::<AudioStream>()`: `AudioStream` is a newtype over
`AudioStreamID = AudioObjectID = u32`, so its size is 4 bytes. -/
def sizeOfAudioStream : Nat := 4

/-- Rust `AudioObject::number_of_streams`: queries the byte size of the scoped
stream-list property and divides by the element size. -/
def AudioObject.number_of_streams (env : PropertyEnv) (d : AudioObject)
    (scope : Scope) : Except UtilsError Nat :=
  let address := if scope = Scope.input then INPUT_DEVICE_STREAMS_PROPERTY_ADDRESS
    else OUTPUT_DEVICE_STREAMS_PROPERTY_ADDRESS
  match env.dataSize d.id address with
  | Except.error e => Except.error e
  | Except.ok size => Except.ok (size / sizeOfAudioStream)

/-- Rust `AudioObject::in_scope`: `Ok(streams > 0)`; a query failure maps to
`Error::InvalidParameters` through the `From` impl. -/
def AudioObject.in_scope (env : PropertyEnv) (d : AudioObject)
    (scope : Scope) : Except AOError Bool :=
  match AudioObject.number_of_streams env d scope with
  | Except.error e => Except.error (AOError.InvalidParameters e)
  | Except.ok streams => Except.ok (decide (streams > 0))

/-- Rust `AudioObject::get_device_name`: fetches the global name property (a
string handle) and marshals it; a marshaling failure becomes
`Error::ConversionFailed`. -/
def AudioObject.get_device_name (env : PropertyEnv) (d : AudioObject) :
    Except AOError String :=
  match env.dataStr d.id DEVICE_NAME_PROPERTY_ADDRESS with
  | Except.error e => Except.error (AOError.InvalidParameters e)
  | Except.ok marshal =>
    match marshal with
    | Except.error e => Except.error (AOError.ConversionFailed e)
    | Except.ok s => Except.ok s

/-- Rust `AudioObject::get_device_source`: requires `in_scope`, else
`Error::WrongScope`; otherwise fetches the scoped data-source id. -/
def AudioObject.get_device_source (env : PropertyEnv) (d : AudioObject)
    (scope : Scope) : Except AOError Nat :=
  match AudioObject.in_scope env d scope with
  | Except.error e => Except.error e
  | Except.ok b =>
    if !b then Except.error AOError.WrongScope
    else
      let address := if scope = Scope.input then INPUT_DEVICE_SOURCE_PROPERTY_ADDRESS
        else OUTPUT_DEVICE_SOURCE_PROPERTY_ADDRESS
      match env.dataU32 d.id address with
      | Except.error e => Except.error (AOError.InvalidParameters e)
      | Except.ok v => Except.ok v

/-- Rust `AudioObject::get_device_source_name`: obtains the source id, performs the
id→name translation query, then marshals the returned string handle. -/
def AudioObject.get_device_source_name (env : PropertyEnv) (d : AudioObject)
    (scope : Scope) : Except AOError String :=
  match AudioObject.get_device_source env d scope with
  | Except.error e => Except.error e
  | Except.ok source =>
    let address := if scope = Scope.input then INPUT_DEVICE_SOURCE_NAME_PROPERTY_ADDRESS
      else OUTPUT_DEVICE_SOURCE_NAME_PROPERTY_ADDRESS
    match env.withPtrTranslation d.id address source with
    | Except.error e => Except.error (AOError.InvalidParameters e)
    | Except.ok marshal =>
      match marshal with
      | Except.error e => Except.error (AOError.ConversionFailed e)
      | Except.ok s => Except.ok s

/-- Rust `AudioObject::get_device_label`: tries `get_device_source_name`;
propagates `WrongScope`; on any other failure falls back to
`get_device_name`. -/
def AudioObject.get_device_label (env : PropertyEnv) (d : AudioObject)
    (scope : Scope) : Except AOError String :=
  match AudioObject.get_device_source_name env d scope with
  | Except.ok name => Except.ok name
  | Except.error AOError.WrongScope => Except.error AOError.WrongScope
  | Except.error _ => AudioObject.get_device_name env d

/-! ## AudioSystemObject -/

/-- A write through `set_property_data`, recorded so that mutation of the
platform's property space is observable in theorems. -/
structure WriteOp where
  handle : Nat
  address : AudioObjectPropertyAddress
  value : Nat
deriving DecidableEq, Repr

/-- Rust `AudioSystemObject::new`: wraps `kAudioObjectSystemObject`. -/
def AudioSystemObject.handle : Nat := kAudioObjectSystemObject

/-- Rust `AudioSystemObject::get_default_device`: reads the scoped default-device
property; `Error::NoDeviceFound` if the returned handle is invalid. -/
def AudioSystemObject.get_default_device (env : PropertyEnv) (scope : Scope) :
    Except AOError AudioObject :=
  let address := if scope = Scope.input then DEFAULT_INPUT_DEVICE_PROPERTY_ADDRESS
    else DEFAULT_OUTPUT_DEVICE_PROPERTY_ADDRESS
  match env.dataU32 AudioSystemObject.handle address with
  | Except.error e => Except.error (AOError.InvalidParameters e)
  | Except.ok id =>
    let device := AudioObject.new id
    if device.is_valid then Except.ok device
    else Except.error AOError.NoDeviceFound

/-- Rust `AudioSystemObject::get_all_devices`: the global device-list property as
an array of handles. -/
def AudioSystemObject.get_all_devices (env : PropertyEnv) :
    Except AOError (List AudioObject) :=
  match env.arrayU32 AudioSystemObject.handle DEVICE_PROPERTY_ADDRESS with
  | Except.error e => Except.error (AOError.InvalidParameters e)
  | Except.ok ids => Except.ok (ids.map AudioObject.new)

/-- Outcome of an operation that can also abort the process (`unwrap` /
`assert!` panic) rather than return a `Result`. -/
inductive Outcome (α : Type) where
  | ok (a : α)
  | err (e : AOError)
  | panicked
deriving DecidableEq, Repr

/-- The `devices.retain(|d| d.in_scope(scope).unwrap())` loop of
`AudioSystemObject::get_devices`: keeps devices in scope, aborting
(`unwrap`) if any probe fails. -/
def retainInScope (env : PropertyEnv) (scope : Scope) :
    List AudioObject → Option (List AudioObject)
  | [] => some []
  | d :: ds =>
    match AudioObject.in_scope env d scope with
    | Except.error _ => none
    | Except.ok b =>
      match retainInScope env scope ds with
      | none => none
      | some rest => some (if b then d :: rest else rest)

/-- Rust `AudioSystemObject::get_devices`: `get_all_devices` filtered by
`in_scope`, with the probe's error branch unwrapped (a probe failure is a
panic, not an `Err`). -/
def AudioSystemObject.get_devices (env : PropertyEnv) (scope : Scope) :
    Outcome (List AudioObject) :=
  match AudioSystemObject.get_all_devices env with
  | Except.error e => Outcome.err e
  | Except.ok devices =>
    match retainInScope env scope devices with
    | none => Outcome.panicked
    | some kept => Outcome.ok kept

/-- Rust `AudioSystemObject::set_default_device`: enforces the scope check (else
`WrongScope`), then the distinctness check against the current default (else
`SetSameDevice`), then writes the scoped default-device property. The result
is paired with the list of property writes attempted. -/
def AudioSystemObject.set_default_device (env : PropertyEnv)
    (device : AudioObject) (scope : Scope) :
    List WriteOp × Except AOError Unit :=
  match AudioObject.in_scope env device scope with
  | Except.error e => ([], Except.error e)
  | Except.ok b =>
    if !b then ([], Except.error AOError.WrongScope)
    else
      match AudioSystemObject.get_default_device env scope with
      | Except.error e => ([], Except.error e)
      | Except.ok default_device =>
        if device = default_device then ([], Except.error AOError.SetSameDevice)
        else
          let address := if scope = Scope.input then DEFAULT_INPUT_DEVICE_PROPERTY_ADDRESS
            else DEFAULT_OUTPUT_DEVICE_PROPERTY_ADDRESS
          ([⟨AudioSystemObject.handle, address, device.id⟩],
            match env.setU32 AudioSystemObject.handle address device.id with
            | Except.error e => Except.error (AOError.InvalidParameters e)
            | Except.ok _ => Except.ok ())

/-! ## Stream engine (`src/stream/mod.rs`) -/

/-- Modelled from the spec: the error of the absent `audio_unit` collaborator
module ("open/configure-property/initialize/start/stop primitives"), carried
as an opaque platform status code. -/
structure AudioUnitError where
  status : Int
deriving DecidableEq, Repr

/-- Rust `stream::Error`: wraps a hardware-unit error. -/
inductive StreamError where
  | AudioUnit (e : AudioUnitError)
deriving DecidableEq, Repr

/-- Rust `Format` enumeration: the two supported sample representations. -/
inductive Format where
  | S16LE
  | F32LE
deriving DecidableEq, Repr

/-- Rust `Format::byte_size`: `size_of::<i16>()` or `size_of::<f32>()`. -/
def Format.byte_size : Format → Nat
  | Format.S16LE => 2
  | Format.F32LE => 4

def kAudioFormatFlagIsFloat : Nat := 1
def kAudioFormatFlagIsSignedInteger : Nat := 4
def kLinearPCMFormatFlagIsPacked : Nat := 8
def kLinearPCMFormatFlagIsNonInterleaved : Nat := 32
def kAudioFormatLinearPCM : Nat := 0x6C70636D

/-- Rust `Format::to_format_flags`: the per-format flag or-ed with packed and
non-interleaved. -/
def Format.to_format_flags (f : Format) : Nat :=
  let flags := match f with
    | Format.S16LE => kAudioFormatFlagIsSignedInteger
    | Format.F32LE => kAudioFormatFlagIsFloat
  flags.lor (kLinearPCMFormatFlagIsPacked.lor kLinearPCMFormatFlagIsNonInterleaved)

/-- Rust `Parameters`: {channel count, sample format, sample rate}. The `f64` rate
is modelled as a rational: the code only stores and copies it. -/
structure Parameters where
  channels : Nat
  format : Format
  rate : ℚ
deriving DecidableEq

/-- Rust `Parameters::new`. -/
def Parameters.new (channels : Nat) (format : Format) (rate : ℚ) : Parameters :=
  ⟨channels, format, rate⟩

/-- Rust `AudioStreamBasicDescription` as filled by `Parameters::to_description`. -/
structure AudioStreamBasicDescription where
  mSampleRate : ℚ
  mFormatID : Nat
  mFormatFlags : Nat
  mBytesPerPacket : Nat
  mFramesPerPacket : Nat
  mBytesPerFrame : Nat
  mChannelsPerFrame : Nat
  mBitsPerChannel : Nat
  mReserved : Nat
deriving DecidableEq

/-- Rust `Parameters::to_description`: derives the wire-level stream description
(non-interleaved, so one sample per frame per buffer). All the `u32`
arithmetic involved stays far below `2^32` (`byte_size ≤ 4`). -/
def Parameters.to_description (p : Parameters) : AudioStreamBasicDescription :=
  let byte_size := p.format.byte_size
  let bits_per_channel := byte_size * 8
  let frames_per_packet := 1
  let bytes_per_frame := byte_size
  let bytes_per_packet := bytes_per_frame * frames_per_packet
  { mSampleRate := p.rate
    mFormatID := kAudioFormatLinearPCM
    mFormatFlags := p.format.to_format_flags
    mBytesPerPacket := bytes_per_packet
    mFramesPerPacket := frames_per_packet
    mBytesPerFrame := bytes_per_frame
    mChannelsPerFrame := p.channels
    mBitsPerChannel := bits_per_channel
    mReserved := 0 }

/-- Rust `audio_unit::Element` (the AUHAL bus): `set_stream_format` and
`set_callback` both target `Element::Output`. -/
inductive Element where
  | Output
  | Input
deriving DecidableEq, Repr

/-- Rust `AudioUnitScope`: `kAudioUnitScope_{Input,Output,Global}`. -/
inductive AudioUnitScope where
  | input
  | output
  | global
deriving DecidableEq, Repr

/-- One observable command issued to the hardware-unit handle. -/
inductive UnitOp where
  | setStreamFormat (scope : AudioUnitScope) (element : Element)
      (description : AudioStreamBasicDescription)
  | setRenderCallback (scope : AudioUnitScope) (element : Element) (ctx : Nat)
  | initUnit
  | start
  | stop
  | uninitUnit
deriving DecidableEq

/-- Modelled from the spec: the absent `audio_unit` hardware-unit collaborator
("`open() -> Result<Handle,Err>`, `set_property(selector, scope, element, &T)`,
`initialize()/uninitialize()`, `start()/stop()`"), as an oracle giving each
primitive's outcome. -/
structure UnitEnv where
  openR : Except AudioUnitError Unit
  setStreamFormatR : AudioStreamBasicDescription → Except AudioUnitError Unit
  setRenderCallbackR : Nat → Except AudioUnitError Unit
  initializeR : Except AudioUnitError Unit
  startR : Except AudioUnitError Unit
  stopR : Except AudioUnitError Unit
  uninitializeR : Except AudioUnitError Unit

/-- Configuration state of the hardware-unit handle owned by a `Stream`:
which stream format has been set, which render-callback context has been
registered, and whether the unit is initialized. A freshly opened unit has
none of these. -/
structure AudioUnitState where
  streamFormat : Option AudioStreamBasicDescription
  renderCallbackCtx : Option Nat
  initialized : Bool
deriving DecidableEq

/-- The state of a hardware-unit handle right after `AudioUnit::new`. -/
def AudioUnitState.fresh : AudioUnitState := ⟨none, none, false⟩

/-- Rust `Stream<T>`: one user callback, one `Parameters` value, one hardware-unit
handle. The callback is observed through the arguments the bridge hands it,
so it needs no representation beyond a tag. -/
structure Rca.Stream where
  callbackTag : Nat
  parameters : Parameters
  unit : AudioUnitState
deriving DecidableEq

/-- Rust `Stream::new` with `szT = size_of::<T>()`. The `assert_eq!` on
`format.byte_size()` is a fatal precondition: `none` models the panic. On
success the stream holds a freshly opened, unconfigured unit — `new`
performs no `set_property` and no `initialize`. -/
def Rca.Stream.new (szT : Nat) (env : UnitEnv) (channels : Nat) (format : Format)
    (rate : ℚ) (callbackTag : Nat) : Option (Except StreamError Rca.Stream) :=
  if format.byte_size = szT then
    some (match env.openR with
      | Except.error e => Except.error (StreamError.AudioUnit e)
      | Except.ok _ =>
        Except.ok ⟨callbackTag, Parameters.new channels format rate, AudioUnitState.fresh⟩)
  else none

/-- Rust `Stream::set_stream_format`: sets the derived description on the unit's
input-scope/output-element stream-format property. -/
def Rca.Stream.set_stream_format (env : UnitEnv) (stm : Rca.Stream) :
    UnitOp × Except StreamError Rca.Stream :=
  let description := stm.parameters.to_description
  (UnitOp.setStreamFormat AudioUnitScope.input Element.Output description,
    match env.setStreamFormatR description with
    | Except.error e => Except.error (StreamError.AudioUnit e)
    | Except.ok _ =>
      Except.ok { stm with unit := { stm.unit with streamFormat := some description } })

/-- Rust `Stream::set_callback` with `addr` = the stream's own memory address
(`self as *mut Self`): registers the render callback with that address as the
opaque context. -/
def Rca.Stream.set_callback (env : UnitEnv) (addr : Nat) (stm : Rca.Stream) :
    UnitOp × Except StreamError Rca.Stream :=
  (UnitOp.setRenderCallback AudioUnitScope.input Element.Output addr,
    match env.setRenderCallbackR addr with
    | Except.error e => Except.error (StreamError.AudioUnit e)
    | Except.ok _ =>
      Except.ok { stm with unit := { stm.unit with renderCallbackCtx := some addr } })

/-- Rust `Stream::init_unit`: initializes the hardware unit. -/
def Rca.Stream.init_unit (env : UnitEnv) (stm : Rca.Stream) :
    UnitOp × Except StreamError Rca.Stream :=
  (UnitOp.initUnit,
    match env.initializeR with
    | Except.error e => Except.error (StreamError.AudioUnit e)
    | Except.ok _ => Except.ok { stm with unit := { stm.unit with initialized := true } })

/-- Rust `Stream::init`: `set_stream_format()?; set_callback()?; init_unit()?`,
each `?` aborting the rest on the first error. Paired with the list of unit
commands issued. -/
def Rca.Stream.init (env : UnitEnv) (addr : Nat) (stm : Rca.Stream) :
    List UnitOp × Except StreamError Rca.Stream :=
  let (op1, r1) := Rca.Stream.set_stream_format env stm
  match r1 with
  | Except.error e => ([op1], Except.error e)
  | Except.ok stm1 =>
    let (op2, r2) := Rca.Stream.set_callback env addr stm1
    match r2 with
    | Except.error e => ([op1, op2], Except.error e)
    | Except.ok stm2 =>
      let (op3, r3) := Rca.Stream.init_unit env stm2
      match r3 with
      | Except.error e => ([op1, op2, op3], Except.error e)
      | Except.ok stm3 => ([op1, op2, op3], Except.ok stm3)

/-- Rust `impl Drop for Stream`: `assert!(self.stop().is_ok())` then
`assert!(self.uninit_unit().is_ok())`. `none` models the abort of a failed
assertion; the list records which unit commands were attempted before any
abort. -/
def Rca.Stream.drop (env : UnitEnv) (_stm : Rca.Stream) : List UnitOp × Option Unit :=
  match env.stopR with
  | Except.error _ => ([UnitOp.stop], none)
  | Except.ok _ =>
    match env.uninitializeR with
    | Except.error _ => ([UnitOp.stop, UnitOp.uninitUnit], none)
    | Except.ok _ => ([UnitOp.stop, UnitOp.uninitUnit], some ())

/-! ## Render-callback bridging -/

/-- Rust `sys::AudioBuffer`: interleave-channel count, reported byte size, and the
raw memory region behind `mData`, modelled as an unbounded sample sequence
(a raw pointer gives no length of its own). -/
structure AudioBuffer (T : Type) where
  mNumberChannels : Nat
  mDataByteSize : Nat
  mData : Nat → T

/-- Rust `AudioData<T>`: the buffer list of one render invocation plus its frame
count. -/
structure AudioData (T : Type) where
  buffers : List (AudioBuffer T)
  frames : Nat

/-- Rust `slice::from_raw_parts_mut(buffer.mData as *mut T, frames)`: the
per-channel slice of exactly `frames` samples over the buffer's memory. -/
def AudioBuffer.asSlice {T : Type} (b : AudioBuffer T) (frames : Nat) : List T :=
  (List.range frames).map b.mData

/-- The per-buffer loop of `Stream::get_buffer_data`: asserts
`mNumberChannels == 1` and `(frames * size_of::<T>()) as u32 ==
mDataByteSize` (the `as u32` truncation is kept), and collects the
per-channel slices; `none` models a fatal assertion failure. -/
def collectChannelBuffers {T : Type} (szT frames : Nat) :
    List (AudioBuffer T) → Option (List (List T))
  | [] => some []
  | b :: bs =>
    if b.mNumberChannels = 1 then
      if frames * szT % 2 ^ 32 = b.mDataByteSize then
        match collectChannelBuffers szT frames bs with
        | none => none
        | some rest => some (b.asSlice frames :: rest)
      else none
    else none

/-- Rust `Stream::get_buffer_data` with `szT = size_of::<T>()`: asserts the buffer
count equals the channel count, collects the verified per-channel slices,
invokes the user callback with them and returns `noErr` (0). The result
`some (args, status)` exposes the slices handed to the callback and the
returned status; `none` models a fatal assertion failure. -/
def Rca.Stream.get_buffer_data {T : Type} (szT : Nat) (stm : Rca.Stream)
    (data : AudioData T) : Option (List (List T) × Int) :=
  if data.buffers.length = stm.parameters.channels then
    match collectChannelBuffers szT data.frames data.buffers with
    | none => none
    | some channel_buffers => some (channel_buffers, 0)
  else none

/-! ## Helper lemmas -/

theorem retainInScope_eq_none {env : PropertyEnv} {scope : Scope}
    {l : List AudioObject}
    (h : ∃ d ∈ l, ∃ e, AudioObject.in_scope env d scope = Except.error e) :
    retainInScope env scope l = none := by
  induction l with
  | nil => rcases h with ⟨d, hd, _⟩; cases hd
  | cons a as ih =>
    rcases h with ⟨d, hd, e, he⟩
    rcases List.mem_cons.mp hd with rfl | hmem
    · simp [retainInScope, he]
    · rcases hin : AudioObject.in_scope env a scope with e' | b
      · simp [retainInScope, hin]
      · simp [retainInScope, hin, ih ⟨d, hmem, e, he⟩]

theorem collectChannelBuffers_eq_some {T : Type} (szT frames : Nat)
    (l : List (AudioBuffer T))
    (h : ∀ b ∈ l, b.mNumberChannels = 1 ∧ frames * szT % 2 ^ 32 = b.mDataByteSize) :
    collectChannelBuffers szT frames l =
      some (l.map (fun b => b.asSlice frames)) := by
  induction l with
  | nil => rfl
  | cons a as ih =>
    obtain ⟨h1, h2⟩ := h a (List.mem_cons_self a as)
    have h2' : frames * szT % 4294967296 = a.mDataByteSize := by simpa using h2
    simp [collectChannelBuffers, h1, h2',
      ih (fun b hb => h b (List.mem_cons_of_mem _ hb))]

theorem collectChannelBuffers_eq_none {T : Type} (szT frames : Nat)
    (l : List (AudioBuffer T))
    (h : ∃ b ∈ l, b.mNumberChannels ≠ 1 ∨ frames * szT % 2 ^ 32 ≠ b.mDataByteSize) :
    collectChannelBuffers szT frames l = none := by
  induction l with
  | nil => rcases h with ⟨b, hb, _⟩; cases hb
  | cons a as ih =>
    rcases h with ⟨b, hb, hviol⟩
    rcases List.mem_cons.mp hb with rfl | hmem
    · by_cases hc : b.mNumberChannels = 1
      · rcases hviol with h' | h'
        · exact absurd hc h'
        · have h2' : frames * szT % 4294967296 ≠ b.mDataByteSize := by
            simpa using h'
          simp [collectChannelBuffers, hc, h2']
      · simp [collectChannelBuffers, hc]
    · by_cases h1 : a.mNumberChannels = 1 <;>
        by_cases h2 : frames * szT % 4294967296 = a.mDataByteSize <;>
        simp [collectChannelBuffers, h1, h2, ih ⟨b, hmem, hviol⟩]

theorem asSlice_length {T : Type} (b : AudioBuffer T) (frames : Nat) :
    (b.asSlice frames).length = frames := by
  simp [AudioBuffer.asSlice]

/-! ## Claim theorems -/

/-- Claim C1: for every device and scope, `set_default_device` fails with
`WrongScope` whenever `in_scope` is false; otherwise it fails with
`SetSameDevice` whenever the device equals the current default for that
scope; and only when both checks pass does it write the scoped
default-device property with the new handle. -/
theorem C1_set_default_device_guards (env : PropertyEnv) (device : AudioObject)
    (scope : Scope) :
    (AudioObject.in_scope env device scope = Except.ok false →
      AudioSystemObject.set_default_device env device scope =
        ([], Except.error AOError.WrongScope)) ∧
    (∀ d, AudioObject.in_scope env device scope = Except.ok true →
      AudioSystemObject.get_default_device env scope = Except.ok d →
      device = d →
      AudioSystemObject.set_default_device env device scope =
        ([], Except.error AOError.SetSameDevice)) ∧
    (∀ d, AudioObject.in_scope env device scope = Except.ok true →
      AudioSystemObject.get_default_device env scope = Except.ok d →
      device ≠ d →
      AudioSystemObject.set_default_device env device scope =
        ([⟨AudioSystemObject.handle,
            if scope = Scope.input then DEFAULT_INPUT_DEVICE_PROPERTY_ADDRESS
              else DEFAULT_OUTPUT_DEVICE_PROPERTY_ADDRESS,
            device.id⟩],
          match env.setU32 AudioSystemObject.handle
              (if scope = Scope.input then DEFAULT_INPUT_DEVICE_PROPERTY_ADDRESS
                else DEFAULT_OUTPUT_DEVICE_PROPERTY_ADDRESS) device.id with
          | Except.error e => Except.error (AOError.InvalidParameters e)
          | Except.ok _ => Except.ok ())) := by
  refine ⟨?_, ?_, ?_⟩
  · intro h
    simp [AudioSystemObject.set_default_device, h]
  · intro d h1 h2 h3
    subst h3
    simp [AudioSystemObject.set_default_device, h1, h2]
  · intro d h1 h2 h3
    simp [AudioSystemObject.set_default_device, h1, h2, h3]

/-- Claim C3: `in_scope` is true iff the device's stream count for the scope
is positive, and `number_of_streams` is the raw byte size of the scoped
stream-list query divided by the size of one stream identifier. -/
theorem C3_in_scope_stream_count (env : PropertyEnv) (d : AudioObject)
    (scope : Scope) :
    (∀ sz, env.dataSize d.id
        (if scope = Scope.input then INPUT_DEVICE_STREAMS_PROPERTY_ADDRESS
          else OUTPUT_DEVICE_STREAMS_PROPERTY_ADDRESS) = Except.ok sz →
      AudioObject.number_of_streams env d scope =
        Except.ok (sz / sizeOfAudioStream)) ∧
    (∀ n, AudioObject.number_of_streams env d scope = Except.ok n →
      AudioObject.in_scope env d scope = Except.ok (decide (n > 0))) := by
  constructor
  · intro sz h
    simp [AudioObject.number_of_streams, h]
  · intro n h
    simp [AudioObject.in_scope, h]

/-- Claim C4: `get_device_source` fails with `WrongScope` when the device is
not in the scope, and `get_device_label` propagates a `WrongScope` failure of
`get_device_source_name` unchanged while any other failure falls back to
`get_device_name`. -/
theorem C4_label_fallback (env : PropertyEnv) (d : AudioObject) (scope : Scope) :
    (AudioObject.in_scope env d scope = Except.ok false →
      AudioObject.get_device_source env d scope = Except.error AOError.WrongScope) ∧
    (AudioObject.get_device_source_name env d scope = Except.error AOError.WrongScope →
      AudioObject.get_device_label env d scope = Except.error AOError.WrongScope) ∧
    (∀ e, AudioObject.get_device_source_name env d scope = Except.error e →
      e ≠ AOError.WrongScope →
      AudioObject.get_device_label env d scope = AudioObject.get_device_name env d) := by
  refine ⟨?_, ?_, ?_⟩
  · intro h
    simp [AudioObject.get_device_source, h]
  · intro h
    simp [AudioObject.get_device_label, h]
  · intro e h hne
    cases e with
    | ConversionFailed e' => simp [AudioObject.get_device_label, h]
    | InvalidParameters e' => simp [AudioObject.get_device_label, h]
    | NoDeviceFound => simp [AudioObject.get_device_label, h]
    | SetSameDevice => simp [AudioObject.get_device_label, h]
    | WrongScope => exact absurd rfl hne

/-- Claim C9: when the device is in scope but the scoped default-device query
returns the unknown sentinel, `set_default_device` returns `NoDeviceFound`
and performs no property write. -/
theorem C9_no_default_no_write (env : PropertyEnv) (device : AudioObject)
    (scope : Scope) :
    AudioObject.in_scope env device scope = Except.ok true →
    env.dataU32 AudioSystemObject.handle
      (if scope = Scope.input then DEFAULT_INPUT_DEVICE_PROPERTY_ADDRESS
        else DEFAULT_OUTPUT_DEVICE_PROPERTY_ADDRESS) =
      Except.ok kAudioObjectUnknown →
    AudioSystemObject.set_default_device env device scope =
      ([], Except.error AOError.NoDeviceFound) := by
  intro h1 h2
  have hdef : AudioSystemObject.get_default_device env scope =
      Except.error AOError.NoDeviceFound := by
    simp [AudioSystemObject.get_default_device, h2, AudioObject.is_valid,
      AudioObject.new]
  simp [AudioSystemObject.set_default_device, h1, hdef]

/-- Claim C10: `get_devices` returns a typed error only when the global
device-list query fails; a failing `in_scope` probe for a retrieved device is
an `unwrap` panic, not an `Err`. -/
theorem C10_get_devices_probe_panics (env : PropertyEnv) (scope : Scope) :
    (∀ e, AudioSystemObject.get_devices env scope = Outcome.err e →
      ∃ ue, env.arrayU32 AudioSystemObject.handle DEVICE_PROPERTY_ADDRESS =
          Except.error ue ∧ e = AOError.InvalidParameters ue) ∧
    (∀ ids, env.arrayU32 AudioSystemObject.handle DEVICE_PROPERTY_ADDRESS =
        Except.ok ids →
      (∃ id ∈ ids, ∃ e, AudioObject.in_scope env (AudioObject.new id) scope =
        Except.error e) →
      AudioSystemObject.get_devices env scope = Outcome.panicked) := by
  constructor
  · intro e he
    rcases h : env.arrayU32 AudioSystemObject.handle DEVICE_PROPERTY_ADDRESS
      with ue | ids
    · refine ⟨ue, rfl, ?_⟩
      simp [AudioSystemObject.get_devices, AudioSystemObject.get_all_devices, h]
        at he
      exact he.symm
    · exfalso
      simp only [AudioSystemObject.get_devices,
        AudioSystemObject.get_all_devices, h] at he
      rcases hr : retainInScope env scope (ids.map AudioObject.new)
        with _ | kept <;> rw [hr] at he <;> cases he
  · intro ids h hprobe
    have hnone : retainInScope env scope (ids.map AudioObject.new) = none := by
      apply retainInScope_eq_none
      rcases hprobe with ⟨id, hid, e, he⟩
      exact ⟨AudioObject.new id, List.mem_map_of_mem _ hid, e, he⟩
    simp [AudioSystemObject.get_devices, AudioSystemObject.get_all_devices, h,
      hnone]

/-- Claim C2: the render bridge checks one buffer per channel, one
interleave-channel per buffer, and per-buffer byte size `frames *
size_of::<T>()`; when these hold it hands the user callback one length-`n`
slice per channel and returns success (0), and any violation is a fatal
assertion failure (`none`), not a recoverable error. -/
theorem C2_render_bridging {T : Type} (szT : Nat) (stm : Rca.Stream)
    (data : AudioData T) :
    ((data.buffers.length = stm.parameters.channels ∧
      (∀ b ∈ data.buffers, b.mNumberChannels = 1 ∧
        b.mDataByteSize = data.frames * szT) ∧
      data.frames * szT < 2 ^ 32) →
      Rca.Stream.get_buffer_data szT stm data =
        some (data.buffers.map (fun b => b.asSlice data.frames), 0) ∧
      (data.buffers.map (fun b => b.asSlice data.frames)).length =
        stm.parameters.channels ∧
      ∀ s ∈ data.buffers.map (fun b => b.asSlice data.frames),
        s.length = data.frames) ∧
    ((data.buffers.length ≠ stm.parameters.channels ∨
      ∃ b ∈ data.buffers, b.mNumberChannels ≠ 1 ∨
        data.frames * szT % 2 ^ 32 ≠ b.mDataByteSize) →
      Rca.Stream.get_buffer_data szT stm data = none) := by
  constructor
  · rintro ⟨hlen, hbuf, hlt⟩
    have hcollect := collectChannelBuffers_eq_some szT data.frames data.buffers
      (fun b hb => ⟨(hbuf b hb).1, by
        rw [Nat.mod_eq_of_lt hlt]; exact ((hbuf b hb).2).symm⟩)
    refine ⟨by simp [Rca.Stream.get_buffer_data, hlen, hcollect], by simp [hlen], ?_⟩
    intro s hs
    rcases List.mem_map.mp hs with ⟨b, _, rfl⟩
    exact asSlice_length b data.frames
  · rintro (h | h)
    · simp [Rca.Stream.get_buffer_data, h]
    · by_cases hlen : data.buffers.length = stm.parameters.channels
      · simp [Rca.Stream.get_buffer_data, hlen,
          collectChannelBuffers_eq_none szT data.frames data.buffers h]
      · simp [Rca.Stream.get_buffer_data, hlen]

/-- Claim C5: `Stream::new` treats a format/sample-type byte-size mismatch as
a fatal assertion (`none`); on success it only opens the hardware-unit handle
and stores the parameters and callback — the fresh unit has no stream format
set, no render callback registered, and is not initialized. -/
theorem C5_stream_new_defers (szT : Nat) (env : UnitEnv) (channels : Nat)
    (format : Format) (rate : ℚ) (cb : Nat) :
    (format.byte_size ≠ szT →
      Rca.Stream.new szT env channels format rate cb = none) ∧
    (format.byte_size = szT → ∀ e, env.openR = Except.error e →
      Rca.Stream.new szT env channels format rate cb =
        some (Except.error (StreamError.AudioUnit e))) ∧
    (format.byte_size = szT → env.openR = Except.ok () →
      Rca.Stream.new szT env channels format rate cb =
        some (Except.ok
          ⟨cb, Parameters.new channels format rate, AudioUnitState.fresh⟩) ∧
      AudioUnitState.fresh.streamFormat = none ∧
      AudioUnitState.fresh.renderCallbackCtx = none ∧
      AudioUnitState.fresh.initialized = false) := by
  refine ⟨?_, ?_, ?_⟩
  · intro h
    simp [Rca.Stream.new, h]
  · intro h e hopen
    simp [Rca.Stream.new, h, hopen]
  · intro h hopen
    exact ⟨by simp [Rca.Stream.new, h, hopen], rfl, rfl, rfl⟩

/-- Claim C6: `Stream::init` performs exactly set-stream-format, register
render callback (with the stream's own address as context), and initialize —
in that order; the first failing sub-step aborts the rest and its error is
returned wrapped as a hardware-unit error. -/
theorem C6_init_sequence (env : UnitEnv) (addr : Nat) (stm : Rca.Stream) :
    (∀ e, env.setStreamFormatR stm.parameters.to_description = Except.error e →
      Rca.Stream.init env addr stm =
        ([UnitOp.setStreamFormat AudioUnitScope.input Element.Output
            stm.parameters.to_description],
          Except.error (StreamError.AudioUnit e))) ∧
    (∀ e, env.setStreamFormatR stm.parameters.to_description = Except.ok () →
      env.setRenderCallbackR addr = Except.error e →
      Rca.Stream.init env addr stm =
        ([UnitOp.setStreamFormat AudioUnitScope.input Element.Output
            stm.parameters.to_description,
          UnitOp.setRenderCallback AudioUnitScope.input Element.Output addr],
          Except.error (StreamError.AudioUnit e))) ∧
    (∀ e, env.setStreamFormatR stm.parameters.to_description = Except.ok () →
      env.setRenderCallbackR addr = Except.ok () →
      env.initializeR = Except.error e →
      Rca.Stream.init env addr stm =
        ([UnitOp.setStreamFormat AudioUnitScope.input Element.Output
            stm.parameters.to_description,
          UnitOp.setRenderCallback AudioUnitScope.input Element.Output addr,
          UnitOp.initUnit],
          Except.error (StreamError.AudioUnit e))) ∧
    (env.setStreamFormatR stm.parameters.to_description = Except.ok () →
      env.setRenderCallbackR addr = Except.ok () →
      env.initializeR = Except.ok () →
      Rca.Stream.init env addr stm =
        ([UnitOp.setStreamFormat AudioUnitScope.input Element.Output
            stm.parameters.to_description,
          UnitOp.setRenderCallback AudioUnitScope.input Element.Output addr,
          UnitOp.initUnit],
          Except.ok { stm with
            unit := ⟨some stm.parameters.to_description, some addr, true⟩ })) := by
  refine ⟨?_, ?_, ?_, ?_⟩
  · intro e h1
    simp [Rca.Stream.init, Rca.Stream.set_stream_format, h1]
  · intro e h1 h2
    simp [Rca.Stream.init, Rca.Stream.set_stream_format, Rca.Stream.set_callback,
      h1, h2]
  · intro e h1 h2 h3
    simp [Rca.Stream.init, Rca.Stream.set_stream_format, Rca.Stream.set_callback,
      Rca.Stream.init_unit, h1, h2, h3]
  · intro h1 h2 h3
    simp [Rca.Stream.init, Rca.Stream.set_stream_format, Rca.Stream.set_callback,
      Rca.Stream.init_unit, h1, h2, h3]

/-- Claim C7: the derived stream description satisfies
`bits_per_channel = byte_size * 8`, `bytes_per_frame = byte_size`,
`frames_per_packet = 1`, `bytes_per_packet = bytes_per_frame` and
`channels_per_frame = channels`; in particular for channels 2, rate 44100,
format S16LE it is (2, 16, 2, 2, 1, 2). -/
theorem C7_description_derivation (p : Parameters) :
    ((p.to_description).mBitsPerChannel = p.format.byte_size * 8 ∧
     (p.to_description).mBytesPerFrame = p.format.byte_size ∧
     (p.to_description).mFramesPerPacket = 1 ∧
     (p.to_description).mBytesPerPacket = (p.to_description).mBytesPerFrame ∧
     (p.to_description).mChannelsPerFrame = p.channels) ∧
    (Format.S16LE.byte_size = 2 ∧
     ((Parameters.new 2 Format.S16LE 44100).to_description).mBitsPerChannel = 16 ∧
     ((Parameters.new 2 Format.S16LE 44100).to_description).mBytesPerFrame = 2 ∧
     ((Parameters.new 2 Format.S16LE 44100).to_description).mBytesPerPacket = 2 ∧
     ((Parameters.new 2 Format.S16LE 44100).to_description).mFramesPerPacket = 1 ∧
     ((Parameters.new 2 Format.S16LE 44100).to_description).mChannelsPerFrame = 2) := by
  constructor
  · exact ⟨rfl, rfl, rfl, by simp [Parameters.to_description], rfl⟩
  · exact ⟨rfl, rfl, rfl, rfl, rfl, rfl⟩

/-- Claim C8 (amended): on destruction the stream attempts `stop`; a `stop`
failure aborts via a failed assertion without attempting `uninitialize`;
otherwise it attempts `uninitialize` and aborts on its failure; only when
both succeed does teardown complete. Failures are fatal assertion aborts,
not observable outcomes. -/
theorem C8_teardown_aborts (env : UnitEnv) (stm : Rca.Stream) :
    (∀ e, env.stopR = Except.error e →
      Rca.Stream.drop env stm = ([UnitOp.stop], none)) ∧
    (∀ e, env.stopR = Except.ok () → env.uninitializeR = Except.error e →
      Rca.Stream.drop env stm = ([UnitOp.stop, UnitOp.uninitUnit], none)) ∧
    (env.stopR = Except.ok () → env.uninitializeR = Except.ok () →
      Rca.Stream.drop env stm = ([UnitOp.stop, UnitOp.uninitUnit], some ())) := by
  refine ⟨?_, ?_, ?_⟩
  · intro e h
    simp [Rca.Stream.drop, h]
  · intro e h1 h2
    simp [Rca.Stream.drop, h1, h2]
  · intro h1 h2
    simp [Rca.Stream.drop, h1, h2]

/-! ## Concrete environments and values for witnesses -/

/-- A property environment where every device has two streams in every scope,
the current default device is handle 3, and every platform call succeeds. -/
def propEnvA : PropertyEnv where
  dataU32 := fun _ _ => Except.ok 3
  dataStr := fun _ _ => Except.ok (Except.ok "Loudspeakers")
  dataSize := fun _ _ => Except.ok 8
  arrayU32 := fun _ _ => Except.ok [3, 7]
  setU32 := fun _ _ _ => Except.ok ()
  withPtrTranslation := fun _ _ _ => Except.ok (Except.ok "Internal Speakers")

/-- A property environment where every scoped stream list is empty (byte size
0): no device is in any scope. -/
def propEnvNoStreams : PropertyEnv where
  dataU32 := fun _ _ => Except.ok 3
  dataStr := fun _ _ => Except.ok (Except.ok "Loudspeakers")
  dataSize := fun _ _ => Except.ok 0
  arrayU32 := fun _ _ => Except.ok []
  setU32 := fun _ _ _ => Except.ok ()
  withPtrTranslation := fun _ _ _ => Except.ok (Except.ok "Internal Speakers")

/-- A property environment with streams present but whose default-device
query returns the unknown sentinel. -/
def propEnvNoDefault : PropertyEnv :=
  { propEnvA with dataU32 := fun _ _ => Except.ok kAudioObjectUnknown }

/-- A property environment whose global device-list query fails. -/
def propEnvListFails : PropertyEnv :=
  { propEnvA with arrayU32 := fun _ _ => Except.error ⟨-3⟩ }

/-- A property environment whose device list is `[9]` but whose stream-size
query (the `in_scope` probe) fails. -/
def propEnvProbeFails : PropertyEnv :=
  { propEnvA with
    arrayU32 := fun _ _ => Except.ok [9]
    dataSize := fun _ _ => Except.error ⟨-4⟩ }

/-- A property environment where the device is in scope but the source-name
translation query fails (a device with no selectable source). -/
def propEnvNoSource : PropertyEnv :=
  { propEnvA with withPtrTranslation := fun _ _ _ => Except.error ⟨-10⟩ }

/-- A hardware-unit environment where every primitive succeeds. -/
def unitEnvOk : UnitEnv where
  openR := Except.ok ()
  setStreamFormatR := fun _ => Except.ok ()
  setRenderCallbackR := fun _ => Except.ok ()
  initializeR := Except.ok ()
  startR := Except.ok ()
  stopR := Except.ok ()
  uninitializeR := Except.ok ()

/-- A hardware-unit environment whose `stop` primitive fails. -/
def unitEnvStopFails : UnitEnv := { unitEnvOk with stopR := Except.error ⟨-50⟩ }

/-- A hardware-unit environment whose `open` primitive fails. -/
def unitEnvOpenFails : UnitEnv := { unitEnvOk with openR := Except.error ⟨-66⟩ }

/-- A concrete stereo 16-bit 44100 Hz stream value. -/
def stm0 : Rca.Stream :=
  ⟨0, Parameters.new 2 Format.S16LE 44100, AudioUnitState.fresh⟩

/-- A concrete render invocation: 2 buffers, 1 interleave-channel each,
4 frames of 2-byte samples (byte size 8), silent memory. -/
def audioData0 : AudioData Int :=
  ⟨[⟨1, 8, fun _ => 0⟩, ⟨1, 8, fun _ => 0⟩], 4⟩

/-! ## Witnesses -/

/-- Witness for C1 at concrete inputs: a device with no streams is rejected
with `WrongScope`; re-setting the current default (handle 3) is rejected with
`SetSameDevice`; a distinct in-scope device (handle 7) reaches the write of
the scoped default-device property. -/
theorem C1_set_default_device_guards_witness :
    AudioSystemObject.set_default_device propEnvNoStreams (AudioObject.new 5)
      Scope.output = ([], Except.error AOError.WrongScope) ∧
    AudioSystemObject.set_default_device propEnvA (AudioObject.new 3)
      Scope.output = ([], Except.error AOError.SetSameDevice) ∧
    AudioSystemObject.set_default_device propEnvA (AudioObject.new 7)
      Scope.output =
      ([⟨AudioSystemObject.handle, DEFAULT_OUTPUT_DEVICE_PROPERTY_ADDRESS, 7⟩],
        Except.ok ()) :=
  ⟨(C1_set_default_device_guards propEnvNoStreams (AudioObject.new 5)
      Scope.output).1 rfl,
   (C1_set_default_device_guards propEnvA (AudioObject.new 3)
      Scope.output).2.1 (AudioObject.new 3) rfl rfl rfl,
   (C1_set_default_device_guards propEnvA (AudioObject.new 7)
      Scope.output).2.2 (AudioObject.new 3) rfl rfl (by decide)⟩

/-- Witness for C3 at concrete inputs: a stream-list byte size of 8 yields
2 streams and scope membership. -/
theorem C3_in_scope_stream_count_witness :
    AudioObject.number_of_streams propEnvA (AudioObject.new 7) Scope.input =
      Except.ok 2 ∧
    AudioObject.in_scope propEnvA (AudioObject.new 7) Scope.input =
      Except.ok true :=
  ⟨(C3_in_scope_stream_count propEnvA (AudioObject.new 7) Scope.input).1 8 rfl,
   (C3_in_scope_stream_count propEnvA (AudioObject.new 7) Scope.input).2 2 rfl⟩

/-- Witness for C4 at concrete inputs: with no streams the source query is
`WrongScope` and the label propagates it; with a failing source-name
translation the label falls back to the device name. -/
theorem C4_label_fallback_witness :
    AudioObject.get_device_source propEnvNoStreams (AudioObject.new 5)
      Scope.output = Except.error AOError.WrongScope ∧
    AudioObject.get_device_label propEnvNoStreams (AudioObject.new 5)
      Scope.output = Except.error AOError.WrongScope ∧
    AudioObject.get_device_label propEnvNoSource (AudioObject.new 7)
      Scope.output = Except.ok "Loudspeakers" :=
  ⟨(C4_label_fallback propEnvNoStreams (AudioObject.new 5) Scope.output).1 rfl,
   (C4_label_fallback propEnvNoStreams (AudioObject.new 5) Scope.output).2.1 rfl,
   ((C4_label_fallback propEnvNoSource (AudioObject.new 7) Scope.output).2.2
      (AOError.InvalidParameters ⟨-10⟩) rfl (by decide)).trans rfl⟩

/-- Witness for C9 at concrete inputs: device 5 is in scope, the default
query returns the unknown sentinel, and `set_default_device` fails with
`NoDeviceFound` without writing. -/
theorem C9_no_default_no_write_witness :
    AudioSystemObject.set_default_device propEnvNoDefault (AudioObject.new 5)
      Scope.input = ([], Except.error AOError.NoDeviceFound) :=
  C9_no_default_no_write propEnvNoDefault (AudioObject.new 5) Scope.input rfl rfl

/-- Witness for C10 at concrete inputs: a failing device-list query surfaces
as a typed `InvalidParameters` error, while a failing per-device probe is a
panic. -/
theorem C10_get_devices_probe_panics_witness :
    (∃ ue, propEnvListFails.arrayU32 AudioSystemObject.handle
        DEVICE_PROPERTY_ADDRESS = Except.error ue ∧
      AOError.InvalidParameters ⟨-3⟩ = AOError.InvalidParameters ue) ∧
    AudioSystemObject.get_devices propEnvProbeFails Scope.input =
      Outcome.panicked :=
  ⟨(C10_get_devices_probe_panics propEnvListFails Scope.input).1
      (AOError.InvalidParameters ⟨-3⟩) rfl,
   (C10_get_devices_probe_panics propEnvProbeFails Scope.input).2 [9] rfl
      ⟨9, by simp, AOError.InvalidParameters ⟨-4⟩, rfl⟩⟩

/-- Witness for C2 at concrete inputs: two one-channel buffers of 8 bytes for
4 frames of 2-byte samples bridge to two slices of length 4 and status 0;
shrinking one buffer's byte size to 7 is a fatal assertion failure. -/
theorem C2_render_bridging_witness :
    Rca.Stream.get_buffer_data 2 stm0 audioData0 =
      some (audioData0.buffers.map (fun b => b.asSlice audioData0.frames), 0) ∧
    Rca.Stream.get_buffer_data 2 stm0
      (⟨[⟨1, 8, fun _ => 0⟩, ⟨1, 7, fun _ => 0⟩], 4⟩ : AudioData Int) = none :=
  ⟨((C2_render_bridging 2 stm0 audioData0).1
      ⟨rfl, by
        intro b hb
        simp only [audioData0, List.mem_cons, List.not_mem_nil, or_false] at hb
        rcases hb with rfl | rfl <;> exact ⟨rfl, rfl⟩, by
        show 4 * 2 < 2 ^ 32
        norm_num⟩).1,
   (C2_render_bridging 2 stm0
      (⟨[⟨1, 8, fun _ => 0⟩, ⟨1, 7, fun _ => 0⟩], 4⟩ : AudioData Int)).2
      (Or.inr ⟨⟨1, 7, fun _ => 0⟩, by simp, Or.inr (by norm_num)⟩)⟩

/-- Witness for C5 at concrete inputs: a 2-byte format with a 4-byte sample
type is a fatal assertion; a failing `open` surfaces as a wrapped
hardware-unit error; on success the stream holds the fresh, unconfigured
unit. -/
theorem C5_stream_new_defers_witness :
    Rca.Stream.new 4 unitEnvOk 2 Format.S16LE 44100 0 = none ∧
    Rca.Stream.new 2 unitEnvOpenFails 2 Format.S16LE 44100 0 =
      some (Except.error (StreamError.AudioUnit ⟨-66⟩)) ∧
    Rca.Stream.new 2 unitEnvOk 2 Format.S16LE 44100 0 =
      some (Except.ok ⟨0, Parameters.new 2 Format.S16LE 44100,
        AudioUnitState.fresh⟩) :=
  ⟨(C5_stream_new_defers 4 unitEnvOk 2 Format.S16LE 44100 0).1 (by decide),
   (C5_stream_new_defers 2 unitEnvOpenFails 2 Format.S16LE 44100 0).2.1 rfl
      ⟨-66⟩ rfl,
   ((C5_stream_new_defers 2 unitEnvOk 2 Format.S16LE 44100 0).2.2 rfl rfl).1⟩

/-- Witness for C6 at concrete inputs: with every primitive succeeding,
`init` issues set-format, set-callback (context = address 100) and
initialize, in order, and succeeds. -/
theorem C6_init_sequence_witness :
    Rca.Stream.init unitEnvOk 100 stm0 =
      ([UnitOp.setStreamFormat AudioUnitScope.input Element.Output
          stm0.parameters.to_description,
        UnitOp.setRenderCallback AudioUnitScope.input Element.Output 100,
        UnitOp.initUnit],
        Except.ok { stm0 with
          unit := ⟨some stm0.parameters.to_description, some 100, true⟩ }) :=
  (C6_init_sequence unitEnvOk 100 stm0).2.2.2 rfl rfl rfl

/-- Counterexample to C8 as stated: with a failing `stop` primitive the
destructor aborts (assertion failure) and never attempts `uninitialize`, so
teardown is neither unconditional about `uninitialize` nor observable on
failure. -/
theorem C8_teardown_counterexample :
    (Rca.Stream.drop unitEnvStopFails stm0).2 = none ∧
    UnitOp.uninitUnit ∉ (Rca.Stream.drop unitEnvStopFails stm0).1 := by
  constructor
  · rfl
  · decide

/-- Witness for the amended C8 at concrete inputs: with both primitives
succeeding, teardown attempts stop then uninitialize and completes. -/
theorem C8_teardown_aborts_witness :
    Rca.Stream.drop unitEnvOk stm0 =
      ([UnitOp.stop, UnitOp.uninitUnit], some ()) :=
  (C8_teardown_aborts unitEnvOk stm0).2.2 rfl rfl
